import Mathlib

/-!
Shallow embedding of the goshala e-commerce server (Express + Mongoose).

The embedding models the serverless server file (the authoritative variant)
and, where a claim refers to it, the legacy server variant.  Machine
arithmetic on 32-bit words is `Nat` with explicit `% 2^32`; strings are
Lean `String`s (lists of characters); the document store is explicit state
(lists of records) threaded through each request handler.
-/

namespace Goshala

/- Batteries seals the `Rat` field operations; reopen them so that concrete
witnesses evaluate by `decide`. -/
attribute [local semireducible] Rat.add Rat.mul Rat.sub Rat.inv Rat.ofScientific

/-! ## SHA-256 and HMAC-SHA256

The capture endpoint verifies signatures with Node's
`crypto.createHmac('sha256', secret).update(msg).digest('hex')`.
We embed the full FIPS 180-4 SHA-256 and RFC 2104 HMAC so that the
verification predicate is a real function of the secret and message.
-/

def w32 : Nat := 4294967296

def rotr (n x : Nat) : Nat := ((x >>> n) ||| (x <<< (32 - n))) % w32

def bnot32 (x : Nat) : Nat := (w32 - 1) - (x % w32)

def bigSigma0 (x : Nat) : Nat := rotr 2 x ^^^ rotr 13 x ^^^ rotr 22 x

def bigSigma1 (x : Nat) : Nat := rotr 6 x ^^^ rotr 11 x ^^^ rotr 25 x

def smallSigma0 (x : Nat) : Nat := rotr 7 x ^^^ rotr 18 x ^^^ (x >>> 3)

def smallSigma1 (x : Nat) : Nat := rotr 17 x ^^^ rotr 19 x ^^^ (x >>> 10)

/-- Binary search for the integer `k`-th root (fuel-driven); the invariant is
`lo^k ≤ n < hi^k`. -/
def powRootAux (k : Nat) : Nat → Nat → Nat → Nat → Nat
  | 0, lo, _, _ => lo
  | fuel + 1, lo, hi, n =>
      if hi ≤ lo + 1 then lo
      else
        let mid := (lo + hi) / 2
        if mid ^ k ≤ n then powRootAux k fuel mid hi n else powRootAux k fuel lo mid n

/-- `⌊n^(1/k)⌋` for the fixed-point constant derivations below. -/
def introot (k n : Nat) : Nat := powRootAux k 128 0 (n + 1) n

def firstPrimes : List Nat :=
  [2, 3, 5, 7, 11, 13, 17, 19, 23, 29, 31, 37, 41, 43, 47, 53, 59, 61, 67, 71,
   73, 79, 83, 89, 97, 101, 103, 107, 109, 113, 127, 131, 137, 139, 149, 151,
   157, 163, 167, 173, 179, 181, 191, 193, 197, 199, 211, 223, 227, 229, 233,
   239, 241, 251, 257, 263, 269, 271, 277, 281, 283, 293, 307, 311]

/-- The SHA-256 round constants: the first 32 bits of the fractional parts of
the cube roots of the first 64 primes. -/
def sha256K : List Nat := firstPrimes.map (fun p => introot 3 (p <<< 96) % w32)

/-- The SHA-256 initial hash value: the first 32 bits of the fractional parts
of the square roots of the first 8 primes. -/
def sha256InitH : List Nat := (firstPrimes.take 8).map (fun p => introot 2 (p <<< 64) % w32)

/-- Extend the 16 block words to the 64-word message schedule (fuel = 48). -/
def scheduleAux : Nat → List Nat → List Nat
  | 0, w => w
  | n + 1, w =>
      let i := w.length
      let wi := (smallSigma1 (w.getD (i - 2) 0) + w.getD (i - 7) 0 +
                 smallSigma0 (w.getD (i - 15) 0) + w.getD (i - 16) 0) % w32
      scheduleAux n (w ++ [wi])

/-- One round of the SHA-256 compression function on the state `[a,b,c,d,e,f,g,h]`;
`kw` is `K[i] + W[i]` already reduced mod 2^32. -/
def compressRound (st : List Nat) (kw : Nat) : List Nat :=
  match st with
  | [a, b, c, d, e, f, g, h] =>
      let s1 := bigSigma1 e
      let ch := (e &&& f) ^^^ (bnot32 e &&& g)
      let t1 := (h + s1 + ch + kw) % w32
      let s0 := bigSigma0 a
      let maj := (a &&& b) ^^^ (a &&& c) ^^^ (b &&& c)
      let t2 := (s0 + maj) % w32
      [(t1 + t2) % w32, a, b, c, (d + t1) % w32, e, f, g]
  | other => other

/-- Compress one 512-bit block (16 words) into the running hash state. -/
def compressBlock (h : List Nat) (block : List Nat) : List Nat :=
  let w := scheduleAux 48 block
  let kw := List.zipWith (fun k wi => (k + wi) % w32) sha256K w
  let st := kw.foldl compressRound h
  List.zipWith (fun x y => (x + y) % w32) h st

/-- Big-endian byte serialization of `v` into `n` bytes. -/
def toBytesBE (n v : Nat) : List Nat :=
  (List.range n).map (fun i => (v >>> (8 * (n - 1 - i))) % 256)

/-- Group bytes into big-endian 32-bit words. -/
def bytesToWords : List Nat → List Nat
  | b0 :: b1 :: b2 :: b3 :: rest => (((b0 * 256 + b1) * 256 + b2) * 256 + b3) :: bytesToWords rest
  | _ => []

/-- FIPS 180-4 padding: append 0x80, zeros, and the 64-bit big-endian bit length. -/
def padMessage (msg : List Nat) : List Nat :=
  let len := msg.length
  let padZeros := (119 - len % 64) % 64
  msg ++ [0x80] ++ List.replicate padZeros 0 ++ toBytesBE 8 (len * 8)

/-- Process the word stream 16 words (one block) at a time (fuel-driven). -/
def processBlocks : Nat → List Nat → List Nat → List Nat
  | 0, h, _ => h
  | n + 1, h, ws =>
      match ws with
      | [] => h
      | _ :: _ => processBlocks n (compressBlock h (ws.take 16)) (ws.drop 16)

/-- SHA-256 of a byte list, as a 32-byte list. -/
def sha256 (msg : List Nat) : List Nat :=
  let ws := bytesToWords (padMessage msg)
  let hf := processBlocks ws.length sha256InitH ws
  (hf.map (toBytesBE 4)).flatten

/-- HMAC-SHA256 (RFC 2104) over byte lists, block size 64. -/
def hmacSha256 (key msg : List Nat) : List Nat :=
  let k0 := if key.length > 64 then sha256 key else key
  let kp := k0 ++ List.replicate (64 - k0.length) 0
  let ipadK := kp.map (fun b => b ^^^ 0x36)
  let opadK := kp.map (fun b => b ^^^ 0x5c)
  sha256 (opadK ++ sha256 (ipadK ++ msg))

def hexDigitChar (n : Nat) : Char :=
  if n < 10 then Char.ofNat (48 + n) else Char.ofNat (87 + n)

/-- Lowercase hex encoding of a byte list (Node `digest('hex')`). -/
def bytesToHex (bs : List Nat) : String :=
  String.mk ((bs.map (fun b => [hexDigitChar (b / 16), hexDigitChar (b % 16)])).flatten)

/-- UTF-8 encoding of one character. -/
def utf8Encode (c : Char) : List Nat :=
  let n := c.toNat
  if n < 0x80 then [n]
  else if n < 0x800 then [0xc0 ||| (n >>> 6), 0x80 ||| (n &&& 0x3f)]
  else if n < 0x10000 then
    [0xe0 ||| (n >>> 12), 0x80 ||| ((n >>> 6) &&& 0x3f), 0x80 ||| (n &&& 0x3f)]
  else
    [0xf0 ||| (n >>> 18), 0x80 ||| ((n >>> 12) &&& 0x3f),
     0x80 ||| ((n >>> 6) &&& 0x3f), 0x80 ||| (n &&& 0x3f)]

def strBytes (s : String) : List Nat := (s.toList.map utf8Encode).flatten

/-- `crypto.createHmac('sha256', key).update(msg).digest('hex')`. -/
def hmacSha256Hex (key msg : String) : String :=
  bytesToHex (hmacSha256 (strBytes key) (strBytes msg))

/-! ## JavaScript string helpers

`trim`, `toLowerCase`, `includes` and truthiness as used by the handlers.
-/

def isJsWs (c : Char) : Bool := c == ' ' || c == '\t' || c == '\n' || c == '\r'

def dropLeadingWs : List Char → List Char
  | [] => []
  | c :: r => if isJsWs c then dropLeadingWs r else c :: r

/-- `String.prototype.trim`. -/
def jsTrim (s : String) : String :=
  String.mk ((dropLeadingWs (dropLeadingWs s.toList.reverse).reverse))

def lowerChar (c : Char) : Char :=
  if 'A' ≤ c && c ≤ 'Z' then Char.ofNat (c.toNat + 32) else c

/-- `String.prototype.toLowerCase` (ASCII range). -/
def jsToLower (s : String) : String := String.mk (s.toList.map lowerChar)

/-- Does `pat` occur at the head of `l`? -/
def leadsWith : List Char → List Char → Bool
  | [], _ => true
  | _ :: _, [] => false
  | a :: as, b :: bs => a == b && leadsWith as bs

def containsSub (needle : List Char) : List Char → Bool
  | [] => leadsWith needle []
  | c :: rest => leadsWith needle (c :: rest) || containsSub needle rest

/-- `hay.includes(needle)`. -/
def jsIncludes (hay needle : String) : Bool := containsSub needle.toList hay.toList

/-- JS truthiness of an optional string field (`!x` is true for missing or `""`). -/
def truthyStr : Option String → Bool
  | none => false
  | some s => !(s == "")

/-- JS truthiness of an optional numeric field (`!x` is true for missing or `0`). -/
def truthyNum : Option Rat → Bool
  | none => false
  | some q => !(q == 0)

/-- `Math.round`: round half toward positive infinity. -/
def jsRound (q : Rat) : Int := ⌊q + 1 / 2⌋

/-- `parseInt` applied to a JS number: truncation toward zero. -/
def jsParseInt (q : Rat) : Int := if 0 ≤ q then ⌊q⌋ else ⌈q⌉

/-- `s` and `t` have equal length and differ at exactly one position. -/
def differsAtOneChar : List Char → List Char → Bool
  | [], [] => false
  | [], _ :: _ => false
  | _ :: _, [] => false
  | a :: as, b :: bs => if a == b then differsAtOneChar as bs else as == bs

def differsAtOne (s t : String) : Bool := differsAtOneChar s.toList t.toList

/-! ## Data model

Mongoose documents, translated from the schemas of the server file.
Dates are model timestamps (`Nat`); numbers are `Rat` (JSON numbers) except
for fields the code always writes as integers.
-/

structure UserInfo where
  firstname : String
  lastname : String
  email : String
  phone : String
  address1 : String
  address2 : String
  city : String
  state : String
  zip : String
deriving DecidableEq, Repr

structure OrderItem where
  id : Int
  name : String
  quantity : Int
  price : Rat
deriving DecidableEq, Repr

structure RazorpayInfo where
  orderId : String
  paymentId : String
  signature : String
deriving DecidableEq, Repr

structure Tracking where
  carrier : String
  number : String
deriving DecidableEq, Repr

structure Order where
  orderId : String
  date : Nat
  user : UserInfo
  total : Rat
  items : List OrderItem
  paymentStatus : String
  razorpay : RazorpayInfo
  shippingStatus : String
  tracking : Tracking
deriving DecidableEq, Repr

structure Product where
  legacyId : Int
  name : String
  dateAdded : Nat
  category : List String
  images : List String
  description : String
  rating : Rat
  reviewsCount : Int
  sellerTag : String
  price : Rat
  originalPrice : Rat
  deliveryDate : String
deriving DecidableEq, Repr

structure Comment where
  productId : Int
  username : String
  comment : String
  rating : Int
  createdAt : Nat
  verifiedPurchase : Bool
deriving DecidableEq, Repr

/-- The document store: one collection per model. -/
structure DB where
  products : List Product
  comments : List Comment
  orders : List Order
deriving DecidableEq, Repr

/-! ## Mongoose validation

`save` runs the schema validators; translated from the schema declarations.
`required` on a trimmed string fails on the empty string; `match` on email is
the unanchored regex `.+@.+\..+`.
-/

/-- The unanchored regex `.+@.+\..+`: at least one character before an `@`,
at least one strictly between that `@` and a later `.`, and at least one after. -/
def emailMatch (s : String) : Bool :=
  let cs := s.toList
  let n := cs.length
  (List.range n).any (fun i =>
    (List.range n).any (fun j =>
      decide (0 < i) && decide (i + 1 < j) && decide (j + 1 < n) &&
      (cs.getD i ' ' == '@') && (cs.getD j ' ' == '.')))

def shippingStatusEnum : List String := ["Pending", "Shipped", "Delivered", "Cancelled"]

def validUser (u : UserInfo) : Bool :=
  !(jsTrim u.firstname == "") && !(jsTrim u.lastname == "") &&
  !(jsTrim u.email == "") && emailMatch (jsTrim u.email) &&
  !(jsTrim u.phone == "") && !(jsTrim u.address1 == "") &&
  !(jsTrim u.city == "") && !(jsTrim u.state == "") && !(jsTrim u.zip == "")

def validOrderItem (it : OrderItem) : Bool :=
  !(it.name == "") && it.quantity ≥ 1 && it.price ≥ 0

/-- Validators of `OrderSchema`. -/
def validOrder (o : Order) : Bool :=
  !(o.orderId == "") && validUser o.user && o.total ≥ 0 &&
  decide (o.items.length > 0) && o.items.all validOrderItem &&
  shippingStatusEnum.contains o.shippingStatus

/-- Validators of `ProductSchema` (`rating`/`reviewsCount` carry no bounds). -/
def validProduct (p : Product) : Bool :=
  !(jsTrim p.name == "") && decide ((jsTrim p.name).length ≥ 3) &&
  decide ((jsTrim p.name).length ≤ 150) &&
  decide ((jsTrim p.description).length ≤ 2000) && p.price ≥ 0

/-- Validators of `CommentSchema`. -/
def validComment (c : Comment) : Bool :=
  !(jsTrim c.username == "") && !(jsTrim c.comment == "") &&
  c.rating ≥ 1 && c.rating ≤ 5

/-! ## Payment capture pipeline (`POST /api/razorpay/capture`) -/

/-- The signature check of the capture endpoint (the spec's `verify_callback`):
recompute `HMAC-SHA256(secret, gatewayOrderId + "|" + paymentId)` as lowercase
hex and compare it to the submitted signature (`digest === razorpay_signature`). -/
def verifyCallback (gatewayOrderId paymentId signature sharedSecret : String) : Bool :=
  hmacSha256Hex sharedSecret (gatewayOrderId ++ "|" ++ paymentId) == signature

structure OrderDetails where
  user : UserInfo
  items : List OrderItem
  total : Rat
deriving DecidableEq, Repr

structure CaptureReq where
  razorpay_order_id : Option String
  razorpay_payment_id : Option String
  razorpay_signature : Option String
  orderDetails : Option OrderDetails
deriving DecidableEq, Repr

inductive SaveError where
  | validation
  | duplicateKey
deriving DecidableEq, Repr

/-- `Order.save()`: mongoose validation, then the store's unique index on
`orderId` (declared `unique: true` in `OrderSchema`), then insertion. -/
def saveOrder (o : Order) (orders : List Order) : Except SaveError (List Order) :=
  if !(validOrder o) then .error .validation
  else if orders.any (fun p => p.orderId == o.orderId) then .error .duplicateKey
  else .ok (orders ++ [o])

/-- The `new Order({...})` document built by the capture handler. -/
def captureOrderDoc (oid pid sig : String) (od : OrderDetails) (now : Nat) : Order :=
  { orderId := oid, date := now, user := od.user, total := od.total, items := od.items,
    paymentStatus := "confirmed",
    razorpay := { orderId := oid, paymentId := pid, signature := sig },
    shippingStatus := "Pending", tracking := { carrier := "", number := "" } }

structure CaptureResult where
  status : Nat
  success : Bool
  error : Option String
  orderId : Option String
  orders : List Order
deriving DecidableEq, Repr

/-- `POST /api/razorpay/capture`.  Missing/falsy fields give 400; a signature
mismatch gives 400 `Invalid signature`; on a match the order is saved, a save
exception being caught as a 500 `Internal Server Error` response. -/
def capture (secret : String) (now : Nat) (req : CaptureReq) (orders : List Order) :
    CaptureResult :=
  match req.razorpay_order_id, req.razorpay_payment_id, req.razorpay_signature,
      req.orderDetails with
  | some oid, some pid, some sig, some od =>
      if oid == "" || pid == "" || sig == "" then
        { status := 400, success := false, error := some "Missing required data.",
          orderId := none, orders := orders }
      else
        let digest := hmacSha256Hex secret (oid ++ "|" ++ pid)
        if digest == sig then
          match saveOrder (captureOrderDoc oid pid sig od now) orders with
          | .ok orders2 =>
              { status := 200, success := true, error := none,
                orderId := some oid, orders := orders2 }
          | .error _ =>
              { status := 500, success := false, error := some "Internal Server Error",
                orderId := none, orders := orders }
        else
          { status := 400, success := false, error := some "Invalid signature",
            orderId := none, orders := orders }
  | _, _, _, _ =>
      { status := 400, success := false, error := some "Missing required data.",
        orderId := none, orders := orders }

/-- The capture request record with all four top-level fields present. -/
def captureReqOf (oid pid sig : String) (od : OrderDetails) : CaptureReq :=
  { razorpay_order_id := some oid, razorpay_payment_id := some pid,
    razorpay_signature := some sig, orderDetails := some od }

/-! ## Review submission pipeline (`POST /api/products/:id/reviews`) -/

structure ReviewReq where
  user : Option String
  rating : Option Rat
  comment : Option String
deriving DecidableEq, Repr

def reviewReqOf (u : String) (q : Rat) (c : String) : ReviewReq :=
  { user := some u, rating := some q, comment := some c }

structure ReviewResult where
  status : Nat
  error : Option String
  newComment : Option Comment
  newRating : Option Rat
  newReviewsCount : Option Int
  db : DB
deriving DecidableEq, Repr

/-- The verified-purchase determination: filter the orders whose items contain
the product id, then test whether any customer's lowercased/trimmed full name
contains the lowercased/trimmed reviewer username. -/
def isVerifiedPurchase (pid : Int) (username : String) (orders : List Order) : Bool :=
  let ordersWithProduct := orders.filter (fun o => o.items.any (fun it => it.id == pid))
  if ordersWithProduct.length > 0 then
    let reviewerName := jsTrim (jsToLower username)
    ordersWithProduct.any (fun o =>
      let customerName := jsTrim (jsToLower (o.user.firstname ++ " " ++ o.user.lastname))
      jsIncludes customerName reviewerName)
  else false

def commentsFor (pid : Int) (cs : List Comment) : List Comment :=
  cs.filter (fun c => c.productId == pid)

/-- `Math.round(avg * 10) / 10`. -/
def roundRating (avg : Rat) : Rat := (jsRound (avg * 10) : Rat) / 10

/-- The `Comment.aggregate` pipeline: `$match` on the product id, then
`$avg` of ratings and `$sum` count; empty when no comment matches. -/
def ratingStats (pid : Int) (cs : List Comment) : Option (Rat × Int) :=
  let matched := commentsFor pid cs
  if matched.length > 0 then
    some ((matched.map (fun c => (c.rating : Rat))).sum / (matched.length : Rat),
      (matched.length : Int))
  else none

/-- The average rating the aggregation computes over the product's comments. -/
def statsAvg (pid : Int) (cs : List Comment) : Rat :=
  ((commentsFor pid cs).map (fun c => (c.rating : Rat))).sum / ((commentsFor pid cs).length : Rat)

/-- The review count the aggregation computes over the product's comments. -/
def statsCount (pid : Int) (cs : List Comment) : Int :=
  ((commentsFor pid cs).length : Int)

/-- `Comment.save()`: schema validation, then insertion. -/
def saveComment (c : Comment) (cs : List Comment) : Except SaveError (List Comment) :=
  if !(validComment c) then .error .validation else .ok (cs ++ [c])

/-- `document.save()` on a product fetched from the store: replace the stored
document (first match on the unique `legacyId`). -/
def replaceProduct (p : Product) : List Product → List Product
  | [] => []
  | q :: rest => if q.legacyId == p.legacyId then p :: rest else q :: replaceProduct p rest

/-- `Product.save()`: schema validation, then in-place replacement. -/
def saveProduct (p : Product) (ps : List Product) : Except SaveError (List Product) :=
  if !(validProduct p) then .error .validation else .ok (replaceProduct p ps)

/-- The `new Comment({...})` document built by the review handler
(`rating: parseInt(rating)`). -/
def reviewCommentDoc (pid : Int) (u : String) (q : Rat) (c : String)
    (verified : Bool) (now : Nat) : Comment :=
  { productId := pid, username := u, comment := c, rating := jsParseInt q,
    createdAt := now, verifiedPurchase := verified }

/-- `POST /api/products/:id/reviews` (route id already parsed to an integer):
resolve the product (404), validate the body (400), compute the
verified-purchase flag, persist the comment, then recompute and persist the
product aggregate from all comments of the product. -/
def submitReview (pid : Int) (req : ReviewReq) (now : Nat) (db : DB) : ReviewResult :=
  match db.products.find? (fun p => p.legacyId == pid) with
  | none =>
      { status := 404, error := some ("Product with ID " ++ toString pid ++ " not found."),
        newComment := none, newRating := none, newReviewsCount := none, db := db }
  | some product =>
      match req.user, req.rating, req.comment with
      | some user, some rating, some commentText =>
          if user == "" || rating == 0 || commentText == "" ||
              decide (rating < 1) || decide (rating > 5) then
            { status := 400,
              error := some "Missing required review fields: user, rating, comment",
              newComment := none, newRating := none, newReviewsCount := none, db := db }
          else
            let isVerified := isVerifiedPurchase product.legacyId user db.orders
            let newComment :=
              reviewCommentDoc product.legacyId user rating commentText isVerified now
            match saveComment newComment db.comments with
            | .error _ =>
                { status := 500, error := some "Failed to add review.",
                  newComment := none, newRating := none, newReviewsCount := none, db := db }
            | .ok comments2 =>
                match ratingStats product.legacyId comments2 with
                | some (avg, count) =>
                    let product2 :=
                      { product with rating := roundRating avg, reviewsCount := count }
                    match saveProduct product2 db.products with
                    | .error _ =>
                        { status := 500, error := some "Failed to add review.",
                          newComment := none, newRating := none, newReviewsCount := none,
                          db := { db with comments := comments2 } }
                    | .ok products2 =>
                        { status := 201, error := none, newComment := some newComment,
                          newRating := some product2.rating,
                          newReviewsCount := some product2.reviewsCount,
                          db := { db with comments := comments2, products := products2 } }
                | none =>
                    { status := 201, error := none, newComment := some newComment,
                      newRating := some product.rating,
                      newReviewsCount := some product.reviewsCount,
                      db := { db with comments := comments2 } }
      | _, _, _ =>
          { status := 400,
            error := some "Missing required review fields: user, rating, comment",
            newComment := none, newRating := none, newReviewsCount := none, db := db }

/-- The response and state an accepted review submission produces: the comment
is appended, and the product aggregate is recomputed fresh over all comments of
the product. -/
def reviewSuccessResult (p : Product) (u : String) (q : Rat) (c : String) (now : Nat)
    (db : DB) : ReviewResult :=
  let newC := reviewCommentDoc p.legacyId u q c (isVerifiedPurchase p.legacyId u db.orders) now
  let comments2 := db.comments ++ [newC]
  let p2 := { p with rating := roundRating (statsAvg p.legacyId comments2),
                     reviewsCount := statsCount p.legacyId comments2 }
  { status := 201, error := none, newComment := some newC,
    newRating := some p2.rating, newReviewsCount := some p2.reviewsCount,
    db := { products := replaceProduct p2 db.products, comments := comments2,
            orders := db.orders } }

/-- Sequential composition of review submissions `(user, rating, comment)`,
collecting the response statuses. -/
def submitAll (pid : Int) (reviews : List (String × Int × String)) (now : Nat) (db : DB) :
    List Nat × DB :=
  match reviews with
  | [] => ([], db)
  | x :: rest =>
      let res := submitReview pid (reviewReqOf x.1 (x.2.1 : Rat) x.2.2) now db
      ((res.status :: (submitAll pid rest now res.db).1), (submitAll pid rest now res.db).2)

/-- The arithmetic mean of a list of integer ratings, as a rational. -/
def ratAvg (rs : List Int) : Rat :=
  (rs.map (fun i : Int => (i : Rat))).sum / ((rs.length : Nat) : Rat)

/-- The product record carrying the aggregate of the rating list `rs`: the mean
rounded to one decimal place, and the count. -/
def aggregatedProduct (p : Product) (rs : List Int) : Product :=
  { p with rating := roundRating (ratAvg rs), reviewsCount := (rs.length : Int) }

/-! ## Product update (`PUT /api/products/:id`) -/

structure ProductUpdate where
  name : Option String := none
  description : Option String := none
  category : Option (List String) := none
  images : Option (List String) := none
  rating : Option Rat := none
  reviewsCount : Option Int := none
  sellerTag : Option String := none
  price : Option Rat := none
  originalPrice : Option Rat := none
  deliveryDate : Option String := none
deriving DecidableEq, Repr

/-- `findOneAndUpdate` with a plain request body: `$set` of every field the
body carries. -/
def applyProductUpdate (u : ProductUpdate) (p : Product) : Product :=
  { p with
    name := u.name.getD p.name, description := u.description.getD p.description,
    category := u.category.getD p.category, images := u.images.getD p.images,
    rating := u.rating.getD p.rating, reviewsCount := u.reviewsCount.getD p.reviewsCount,
    sellerTag := u.sellerTag.getD p.sellerTag, price := u.price.getD p.price,
    originalPrice := u.originalPrice.getD p.originalPrice,
    deliveryDate := u.deliveryDate.getD p.deliveryDate }

structure PutProductResult where
  status : Nat
  error : Option String
  product : Option Product
  db : DB
deriving DecidableEq, Repr

/-- `PUT /api/products/:id`: `findOneAndUpdate({legacyId}, req.body,
{new: true, runValidators: true})`. -/
def putProduct (pid : Int) (u : ProductUpdate) (db : DB) : PutProductResult :=
  match db.products.find? (fun p => p.legacyId == pid) with
  | none => { status := 404, error := some "Product not found.", product := none, db := db }
  | some p =>
      let p2 := applyProductUpdate u p
      if !(validProduct p2) then
        { status := 400, error := some "Failed to update product.", product := none, db := db }
      else
        { status := 200, error := none, product := some p2,
          db := { db with products := replaceProduct p2 db.products } }

/-! ## Product listing pagination (`GET /api/products`) -/

structure ProductsPage where
  products : List Product
  totalPages : Int
  currentPage : Int
  totalProducts : Int
deriving DecidableEq, Repr

/-- Pagination of the serverless `GET /api/products` over the (filtered and
sorted) result set: `pageNum = Math.max(1, page)`,
`limitNum = Math.min(50, Math.max(1, limit))`, `skip = (pageNum-1)*limitNum`,
`totalPages = Math.ceil(total/limitNum)`. -/
def getProductsPage (page limit : Int) (products : List Product) : ProductsPage :=
  let pageNum := max 1 page
  let limitNum := min 50 (max 1 limit)
  let skip := (pageNum - 1) * limitNum
  let totalProducts := products.length
  { products := (products.drop skip.toNat).take limitNum.toNat,
    totalPages := ⌈(totalProducts : Rat) / (limitNum : Rat)⌉,
    currentPage := pageNum, totalProducts := totalProducts }

/-- Pagination of the legacy server's `GET /api/products`: no clamping at all,
`skip = (page-1)*limit` and `limit` used as parsed. -/
def legacyGetProductsPage (page limit : Int) (products : List Product) : ProductsPage :=
  let skip := (page - 1) * limit
  let totalProducts := products.length
  { products := (products.drop skip.toNat).take limit.toNat,
    totalPages := ⌈(totalProducts : Rat) / (limit : Rat)⌉,
    currentPage := page, totalProducts := totalProducts }

/-! ## Payment intent creation (`POST /api/razorpay/create-order`) -/

inductive GatewayOutcome where
  | ok (orderId : String)
  | nullResult
  | err
deriving DecidableEq, Repr

structure CreateOrderResult where
  status : Nat
  success : Option Bool
  error : Option String
  orderId : Option String
  calledWith : Option Int
deriving DecidableEq, Repr

/-- `POST /api/razorpay/create-order`: reject a falsy `total` with 400, else
call the gateway with `Math.round(total * 100)` minor units; a falsy gateway
result gives the 500 text response, a thrown error the 500 JSON response.
`calledWith` records the amount the gateway was asked for (`none` = the
gateway was never called). -/
def createOrder (gateway : Int → GatewayOutcome) : Option Rat → CreateOrderResult
  | none =>
      { status := 400, success := some false, error := some "Total amount is required.",
        orderId := none, calledWith := none }
  | some t =>
      if t == 0 then
        { status := 400, success := some false, error := some "Total amount is required.",
          orderId := none, calledWith := none }
      else
        let amount := jsRound (t * 100)
        match gateway amount with
        | .ok oid =>
            { status := 200, success := some true, error := none,
              orderId := some oid, calledWith := some amount }
        | .nullResult =>
            { status := 500, success := none,
              error := some "Error creating Razorpay order",
              orderId := none, calledWith := some amount }
        | .err =>
            { status := 500, success := some false, error := some "Internal Server Error",
              orderId := none, calledWith := some amount }

/-! ## Order status update (`PUT /api/admin/orders/:orderId/status`) -/

structure StatusUpdateReq where
  status : Option String := none
  trackingNumber : Option String := none
  trackingCarrier : Option String := none
deriving DecidableEq, Repr

/-- `x || ''` on an optional string field. -/
def jsOrEmpty : Option String → String
  | none => ""
  | some s => if s == "" then "" else s

/-- The `$set` payload applied to the matched order: `shippingStatus` only when
`status` is truthy; `tracking.number` and `tracking.carrier` always. -/
def applyStatusUpdate (req : StatusUpdateReq) (o : Order) : Order :=
  { o with
    shippingStatus := if truthyStr req.status then req.status.getD "" else o.shippingStatus,
    tracking := { number := jsOrEmpty req.trackingNumber,
                  carrier := jsOrEmpty req.trackingCarrier } }

def updateFirstOrder (oid : String) (f : Order → Order) : List Order → List Order
  | [] => []
  | o :: rest => if o.orderId == oid then f o :: rest else o :: updateFirstOrder oid f rest

structure StatusUpdateResult where
  status : Nat
  error : Option String
  order : Option Order
  orders : List Order
deriving DecidableEq, Repr

/-- `PUT /api/admin/orders/:orderId/status`: reject a truthy but non-enum
`status` with 400, else `findOneAndUpdate` on `orderId` with the payload. -/
def updateOrderStatus (oid : String) (req : StatusUpdateReq) (orders : List Order) :
    StatusUpdateResult :=
  if truthyStr req.status && !(shippingStatusEnum.contains (req.status.getD "")) then
    { status := 400, error := some "Invalid status value.", order := none, orders := orders }
  else
    match orders.find? (fun o => o.orderId == oid) with
    | none => { status := 404, error := some "Order not found.", order := none, orders := orders }
    | some o =>
        { status := 200, error := none, order := some (applyStatusUpdate req o),
          orders := updateFirstOrder oid (applyStatusUpdate req) orders }

/-! ## Concrete fixtures for witnesses -/

def sampleUser : UserInfo :=
  { firstname := "Priya", lastname := "Sharma Reddy", email := "priya@example.com",
    phone := "9999999999", address1 := "1 Main St", address2 := "",
    city := "Pune", state := "MH", zip := "411001" }

def sampleItems : List OrderItem :=
  [{ id := 1, name := "Ghee", quantity := 2, price := 350 }]

def sampleOD : OrderDetails := { user := sampleUser, items := sampleItems, total := 700 }

/-- `HMAC-SHA256("sec", "oid1|pid1")` as lowercase hex. -/
def c3sig : String := "e4a1db2aa8cbb6d5c2b21d509cba400bc8f85c7e3d0fbede3f690d5962ad6bad"

def sampleUser2 : UserInfo :=
  { firstname := "Arjun", lastname := "Rao", email := "arjun@example.com",
    phone := "8888888888", address1 := "2 Hill Rd", address2 := "",
    city := "Pune", state := "MH", zip := "411002" }

def sampleOD2 : OrderDetails :=
  { user := sampleUser2, items := [{ id := 2, name := "Butter", quantity := 1, price := 250 }],
    total := 250 }

/-- `HMAC-SHA256("sec", "oid1|pid9")` as lowercase hex. -/
def c3sig2 : String := "5379bb19319e4a744dba57f2ccad7925132a88b36d3fe131f114108464e62f50"

def baseProduct : Product :=
  { legacyId := 1, name := "Pure Ghee", dateAdded := 0, category := ["Dairy"], images := [],
    description := "", rating := 0, reviewsCount := 0, sellerTag := "", price := 350,
    originalPrice := 0, deliveryDate := "" }

def db0 : DB := { products := [baseProduct], comments := [], orders := [] }

def priyaOrder : Order :=
  { orderId := "ord_p1", date := 0, user := sampleUser, total := 700, items := sampleItems,
    paymentStatus := "confirmed", razorpay := { orderId := "ord_p1", paymentId := "p1", signature := "s" },
    shippingStatus := "Pending", tracking := { carrier := "", number := "" } }

def dbPriya : DB := { products := [baseProduct], comments := [], orders := [priyaOrder] }

def trackedOrder : Order :=
  { orderId := "ord_t1", date := 0, user := sampleUser, total := 700, items := sampleItems,
    paymentStatus := "confirmed", razorpay := { orderId := "ord_t1", paymentId := "p2", signature := "s" },
    shippingStatus := "Pending", tracking := { carrier := "BlueDart", number := "TRK123" } }

/-! ## Helper lemmas -/

set_option maxRecDepth 100000 in
/-- RFC 4231 test case 2 validates the embedding of HMAC-SHA256. -/
theorem hmacSha256Hex_rfc4231_case2 :
    hmacSha256Hex "Jefe" "what do ya want for nothing?" =
      "5bdcc146bf60754e6a042426089575c75a003f089d2739839dec58b964ec3843" := by
  decide

theorem differsAtOneChar_ne : ∀ {s t : List Char}, differsAtOneChar s t = true → s ≠ t
  | [], [], h => by simp [differsAtOneChar] at h
  | [], _ :: _, h => by simp [differsAtOneChar] at h
  | _ :: _, [], h => by simp [differsAtOneChar] at h
  | a :: as, b :: bs, h => by
      by_cases hab : a = b
      · subst hab
        simp only [differsAtOneChar, beq_self_eq_true, if_true] at h
        have := differsAtOneChar_ne (s := as) (t := bs) h
        intro hc; injection hc with h1 h2; exact this h2
      · intro hc; injection hc with h1 h2; exact hab h1

theorem differsAtOne_ne {s t : String} (h : differsAtOne s t = true) : s ≠ t := by
  intro hc; subst hc
  exact differsAtOneChar_ne h rfl

theorem jsParseInt_intCast (n : Int) : jsParseInt ((n : Int) : Rat) = n := by
  unfold jsParseInt
  rcases le_or_lt 0 ((n : Int) : Rat) with h | h
  · rw [if_pos h, Int.floor_intCast]
  · rw [if_neg (not_le.mpr h), Int.ceil_intCast]

theorem jsParseInt_one_le {q : Rat} (h1 : 1 ≤ q) : 1 ≤ jsParseInt q := by
  unfold jsParseInt
  rw [if_pos (le_trans zero_le_one h1)]
  exact Int.le_floor.mpr (by exact_mod_cast h1)

theorem jsParseInt_le_five {q : Rat} (h1 : 1 ≤ q) (h5 : q ≤ 5) : jsParseInt q ≤ 5 := by
  unfold jsParseInt
  rw [if_pos (le_trans zero_le_one h1)]
  calc ⌊q⌋ ≤ ⌊(5 : Rat)⌋ := Int.floor_le_floor h5
    _ = 5 := by norm_num

theorem find?_replaceProduct {pid : Int} (p2 : Product) (hp2 : p2.legacyId = pid) :
    ∀ (l : List Product) (x : Product),
      l.find? (fun q => q.legacyId == pid) = some x →
      (replaceProduct p2 l).find? (fun q => q.legacyId == pid) = some p2
  | [], x, h => by simp at h
  | q :: rest, x, h => by
      cases hq : (q.legacyId == pid) with
      | true =>
          unfold replaceProduct
          have hq' : (q.legacyId == p2.legacyId) = true := by rw [hp2]; exact hq
          rw [if_pos hq']
          have hp2t : (p2.legacyId == pid) = true := by
            rw [hp2]
            exact beq_self_eq_true pid
          simp only [List.find?, hp2t]
      | false =>
          unfold replaceProduct
          have hq' : (q.legacyId == p2.legacyId) = false := by rw [hp2]; exact hq
          rw [if_neg (by rw [hq']; exact Bool.false_ne_true)]
          simp only [List.find?, hq] at h ⊢
          exact find?_replaceProduct p2 hp2 rest x h

/-- Unconditionally accepted review submission: the handler responds 201,
appends the comment and rewrites the product aggregate from all comments of
the product. -/
theorem submitReview_accepted (pid : Int) (u : String) (q : Rat) (c : String) (now : Nat)
    (db : DB) (p : Product)
    (hfind : db.products.find? (fun x => x.legacyId == pid) = some p)
    (hpv : validProduct p = true)
    (hu : (u == "") = false) (hut : (jsTrim u == "") = false)
    (hc : (c == "") = false) (hct : (jsTrim c == "") = false)
    (hq1 : 1 ≤ q) (hq5 : q ≤ 5) :
    submitReview pid (reviewReqOf u q c) now db = reviewSuccessResult p u q c now db := by
  have hq0 : (q == 0) = false := by
    refine beq_eq_false_iff_ne.mpr ?_
    intro h
    rw [h] at hq1
    exact absurd hq1 (by norm_num)
  have hlt : decide (q < 1) = false := decide_eq_false (not_lt.mpr hq1)
  have hgt : decide (q > 5) = false := decide_eq_false (not_lt.mpr hq5)
  have hguard : (u == "" || (q == 0 : Bool) || c == "" ||
      decide (q < 1) || decide (q > 5)) = false := by
    rw [hu, hq0, hc, hlt, hgt]
    rfl
  have hjp1 : 1 ≤ jsParseInt q := jsParseInt_one_le hq1
  have hjp5 : jsParseInt q ≤ 5 := jsParseInt_le_five hq1 hq5
  have hvc : validComment (reviewCommentDoc p.legacyId u q c
      (isVerifiedPurchase p.legacyId u db.orders) now) = true := by
    simp [validComment, reviewCommentDoc, hut, hct, hjp1, hjp5]
  have hsaveC : saveComment (reviewCommentDoc p.legacyId u q c
        (isVerifiedPurchase p.legacyId u db.orders) now) db.comments =
      .ok (db.comments ++ [reviewCommentDoc p.legacyId u q c
        (isVerifiedPurchase p.legacyId u db.orders) now]) := by
    simp [saveComment, hvc]
  have hcf : commentsFor p.legacyId (db.comments ++ [reviewCommentDoc p.legacyId u q c
        (isVerifiedPurchase p.legacyId u db.orders) now]) =
      commentsFor p.legacyId db.comments ++ [reviewCommentDoc p.legacyId u q c
        (isVerifiedPurchase p.legacyId u db.orders) now] := by
    simp [commentsFor, List.filter_append, reviewCommentDoc]
  have hlen : 0 < (commentsFor p.legacyId (db.comments ++ [reviewCommentDoc p.legacyId u q c
      (isVerifiedPurchase p.legacyId u db.orders) now])).length := by
    rw [hcf]
    simp
  have hstats : ratingStats p.legacyId (db.comments ++ [reviewCommentDoc p.legacyId u q c
        (isVerifiedPurchase p.legacyId u db.orders) now]) =
      some (statsAvg p.legacyId (db.comments ++ [reviewCommentDoc p.legacyId u q c
          (isVerifiedPurchase p.legacyId u db.orders) now]),
        statsCount p.legacyId (db.comments ++ [reviewCommentDoc p.legacyId u q c
          (isVerifiedPurchase p.legacyId u db.orders) now])) := by
    simp only [ratingStats, statsAvg, statsCount]
    rw [if_pos hlen]
  have hvp2 : validProduct { p with
      rating := roundRating (statsAvg p.legacyId (db.comments ++ [reviewCommentDoc p.legacyId u q c
        (isVerifiedPurchase p.legacyId u db.orders) now])),
      reviewsCount := statsCount p.legacyId (db.comments ++ [reviewCommentDoc p.legacyId u q c
        (isVerifiedPurchase p.legacyId u db.orders) now]) } = true := hpv
  have hsaveP : saveProduct { p with
      rating := roundRating (statsAvg p.legacyId (db.comments ++ [reviewCommentDoc p.legacyId u q c
        (isVerifiedPurchase p.legacyId u db.orders) now])),
      reviewsCount := statsCount p.legacyId (db.comments ++ [reviewCommentDoc p.legacyId u q c
        (isVerifiedPurchase p.legacyId u db.orders) now]) } db.products =
      .ok (replaceProduct { p with
      rating := roundRating (statsAvg p.legacyId (db.comments ++ [reviewCommentDoc p.legacyId u q c
        (isVerifiedPurchase p.legacyId u db.orders) now])),
      reviewsCount := statsCount p.legacyId (db.comments ++ [reviewCommentDoc p.legacyId u q c
        (isVerifiedPurchase p.legacyId u db.orders) now]) } db.products) := by
    simp [saveProduct, hvp2]
  unfold submitReview reviewSuccessResult
  rw [hfind]
  simp only [reviewReqOf, hguard, Bool.false_eq_true, if_false, hsaveC, hstats, hsaveP]

theorem commentsFor_append (pid : Int) (cs : List Comment) (c : Comment)
    (h : (c.productId == pid) = true) :
    commentsFor pid (cs ++ [c]) = commentsFor pid cs ++ [c] := by
  unfold commentsFor
  rw [List.filter_append]
  simp [h]

theorem statsAvg_eq (pid : Int) (cs : List Comment) :
    statsAvg pid cs = ratAvg ((commentsFor pid cs).map (fun c => c.rating)) := by
  unfold statsAvg ratAvg
  rw [List.map_map, List.length_map]
  rfl

theorem statsCount_eq (pid : Int) (cs : List Comment) :
    statsCount pid cs = (((commentsFor pid cs).map (fun c : Comment => c.rating)).length : Int) := by
  unfold statsCount
  rw [List.length_map]

theorem isVerifiedPurchase_iff (pid : Int) (username : String) (orders : List Order) :
    isVerifiedPurchase pid username orders = true ↔
    ∃ o ∈ orders, (∃ it ∈ o.items, it.id = pid) ∧
      jsIncludes (jsTrim (jsToLower (o.user.firstname ++ " " ++ o.user.lastname)))
        (jsTrim (jsToLower username)) = true := by
  have hcollapse : isVerifiedPurchase pid username orders =
      (orders.filter (fun o => o.items.any (fun it => it.id == pid))).any (fun o =>
        jsIncludes (jsTrim (jsToLower (o.user.firstname ++ " " ++ o.user.lastname)))
          (jsTrim (jsToLower username))) := by
    simp only [isVerifiedPurchase]
    by_cases hf : 0 < (orders.filter (fun o => o.items.any (fun it => it.id == pid))).length
    · rw [if_pos hf]
    · rw [if_neg hf]
      have hz : orders.filter (fun o => o.items.any (fun it => it.id == pid)) = [] := by
        cases hh : orders.filter (fun o => o.items.any (fun it => it.id == pid)) with
        | nil => rfl
        | cons a l => rw [hh] at hf; exact absurd (by simp) hf
      rw [hz]
      rfl
  rw [hcollapse, List.any_eq_true]
  constructor
  · rintro ⟨o, ho, hg⟩
    have hmem := List.mem_filter.mp ho
    refine ⟨o, hmem.1, ?_, hg⟩
    have hany := hmem.2
    rw [List.any_eq_true] at hany
    obtain ⟨it, hit, heq⟩ := hany
    exact ⟨it, hit, beq_iff_eq.mp heq⟩
  · rintro ⟨o, ho, ⟨it, hit, hid⟩, hg⟩
    refine ⟨o, List.mem_filter.mpr ⟨ho, ?_⟩, hg⟩
    rw [List.any_eq_true]
    exact ⟨it, hit, beq_iff_eq.mpr hid⟩

/-- One accepted review against the invariant state of the aggregate induction:
the handler answers 201, leaves orders alone, stores the product carrying the
aggregate of `acc ++ [r]`, and extends the product's comment ratings by `r`. -/
theorem submitReview_step (now : Nat) (base pcur : Product) (db : DB) (u cc : String)
    (r : Int) (acc : List Int)
    (hfind : db.products.find? (fun x => x.legacyId == base.legacyId) = some pcur)
    (hpv : validProduct base = true)
    (hinv : base = pcur ∨ aggregatedProduct base acc = pcur)
    (hmap : (commentsFor base.legacyId db.comments).map (fun c => c.rating) = acc)
    (hu : (u == "") = false) (hut : (jsTrim u == "") = false)
    (hcc : (cc == "") = false) (hcct : (jsTrim cc == "") = false)
    (hr1 : 1 ≤ r) (hr5 : r ≤ 5) :
    (submitReview base.legacyId (reviewReqOf u (r : Rat) cc) now db).status = 201 ∧
    (submitReview base.legacyId (reviewReqOf u (r : Rat) cc) now db).db.orders = db.orders ∧
    (submitReview base.legacyId (reviewReqOf u (r : Rat) cc) now db).db.products.find?
        (fun x => x.legacyId == base.legacyId) =
      some (aggregatedProduct base (acc ++ [r])) ∧
    (commentsFor base.legacyId
        (submitReview base.legacyId (reviewReqOf u (r : Rat) cc) now db).db.comments).map
      (fun c => c.rating) = acc ++ [r] := by
  have hpvc : validProduct pcur = true := by
    rcases hinv with h | h <;> (subst h; exact hpv)
  have hq1 : (1 : Rat) ≤ (r : Rat) := by exact_mod_cast hr1
  have hq5 : ((r : Int) : Rat) ≤ 5 := by exact_mod_cast hr5
  have happ := submitReview_accepted base.legacyId u (r : Rat) cc now db pcur hfind hpvc
    hu hut hcc hcct hq1 hq5
  rw [happ]
  have hmap2 : (commentsFor base.legacyId (db.comments ++
      [reviewCommentDoc base.legacyId u (r : Rat) cc
        (isVerifiedPurchase base.legacyId u db.orders) now])).map
        (fun c : Comment => c.rating) = acc ++ [r] := by
    rw [commentsFor_append base.legacyId db.comments _ (beq_self_eq_true _),
      List.map_append, hmap]
    simp [reviewCommentDoc, jsParseInt_intCast]
  rcases hinv with h | h <;> subst h <;>
  · refine ⟨rfl, rfl, ?_, ?_⟩
    · show (replaceProduct { base with
          rating := roundRating (statsAvg base.legacyId (db.comments ++
            [reviewCommentDoc base.legacyId u (r : Rat) cc
              (isVerifiedPurchase base.legacyId u db.orders) now])),
          reviewsCount := statsCount base.legacyId (db.comments ++
            [reviewCommentDoc base.legacyId u (r : Rat) cc
              (isVerifiedPurchase base.legacyId u db.orders) now]) } db.products).find?
          (fun x => x.legacyId == base.legacyId) =
        some (aggregatedProduct base (acc ++ [r]))
      have hP2 : { base with
          rating := roundRating (statsAvg base.legacyId (db.comments ++
            [reviewCommentDoc base.legacyId u (r : Rat) cc
              (isVerifiedPurchase base.legacyId u db.orders) now])),
          reviewsCount := statsCount base.legacyId (db.comments ++
            [reviewCommentDoc base.legacyId u (r : Rat) cc
              (isVerifiedPurchase base.legacyId u db.orders) now]) } =
          aggregatedProduct base (acc ++ [r]) := by
        rw [statsAvg_eq, statsCount_eq, hmap2]
        rfl
      rw [hP2]
      exact find?_replaceProduct (aggregatedProduct base (acc ++ [r])) rfl db.products _ hfind
    · exact hmap2

/-- Folding accepted review submissions preserves the aggregate invariant. -/
theorem submitAll_ok (now : Nat) (base : Product) :
    ∀ (reviews : List (String × Int × String)) (db : DB) (pcur : Product) (acc : List Int),
      db.products.find? (fun x => x.legacyId == base.legacyId) = some pcur →
      validProduct base = true →
      (base = pcur ∨ aggregatedProduct base acc = pcur) →
      (commentsFor base.legacyId db.comments).map (fun c => c.rating) = acc →
      (∀ x ∈ reviews, (x.1 == "") = false ∧ (jsTrim x.1 == "") = false ∧
        (x.2.2 == "") = false ∧ (jsTrim x.2.2 == "") = false ∧ 1 ≤ x.2.1 ∧ x.2.1 ≤ 5) →
      (submitAll base.legacyId reviews now db).1.all (fun s => s == 201) = true ∧
      (submitAll base.legacyId reviews now db).2.products.find?
          (fun x => x.legacyId == base.legacyId) =
        some (if reviews.isEmpty then pcur
              else aggregatedProduct base (acc ++ reviews.map (fun x => x.2.1)))
  | [], db, pcur, acc, hfind, hpv, hinv, hmap, hgood => by
      exact ⟨rfl, by simpa [submitAll] using hfind⟩
  | x :: rest, db, pcur, acc, hfind, hpv, hinv, hmap, hgood => by
      obtain ⟨hu, hut, hcc, hcct, hr1, hr5⟩ := hgood x (List.mem_cons_self x rest)
      obtain ⟨hs201, hord, hfind2, hmap2⟩ :=
        submitReview_step now base pcur db x.1 x.2.2 x.2.1 acc hfind hpv hinv hmap
          hu hut hcc hcct hr1 hr5
      have hrest : ∀ y ∈ rest, (y.1 == "") = false ∧ (jsTrim y.1 == "") = false ∧
          (y.2.2 == "") = false ∧ (jsTrim y.2.2 == "") = false ∧ 1 ≤ y.2.1 ∧ y.2.1 ≤ 5 :=
        fun y hy => hgood y (List.mem_cons_of_mem x hy)
      have hIH := submitAll_ok now base rest
        ((submitReview base.legacyId (reviewReqOf x.1 (x.2.1 : Rat) x.2.2) now db).db)
        (aggregatedProduct base (acc ++ [x.2.1])) (acc ++ [x.2.1])
        hfind2 hpv (Or.inr rfl) hmap2 hrest
      constructor
      · show ((submitReview base.legacyId (reviewReqOf x.1 (x.2.1 : Rat) x.2.2) now db).status ::
            (submitAll base.legacyId rest now
              (submitReview base.legacyId (reviewReqOf x.1 (x.2.1 : Rat) x.2.2) now db).db).1).all
            (fun s => s == 201) = true
        rw [hs201, List.all_cons, hIH.1]
        rfl
      · show (submitAll base.legacyId rest now
            (submitReview base.legacyId (reviewReqOf x.1 (x.2.1 : Rat) x.2.2) now db).db).2.products.find?
            (fun x => x.legacyId == base.legacyId) =
          some (if (x :: rest).isEmpty then pcur
            else aggregatedProduct base (acc ++ (x :: rest).map (fun x => x.2.1)))
        rw [hIH.2]
        cases rest with
        | nil => simp
        | cons y ys => simp [List.append_assoc]

/-- C1: the capture verification accepts a submitted signature iff it equals the
lowercase hex HMAC-SHA256 of `gatewayOrderId + "|" + paymentId` under the shared
secret, and changing any single character of an accepted signature causes
rejection. -/
theorem capture_signature_check_iff_hmac (oid pid secret sig : String) :
    (verifyCallback oid pid sig secret = true ↔
      sig = hmacSha256Hex secret (oid ++ "|" ++ pid)) ∧
    (∀ sig', verifyCallback oid pid sig secret = true →
      differsAtOne sig sig' = true →
      verifyCallback oid pid sig' secret = false) := by
  constructor
  · show (hmacSha256Hex secret (oid ++ "|" ++ pid) == sig) = true ↔ _
    rw [beq_iff_eq]
    exact eq_comm
  · intro sig' hacc hdiff
    have h1 : hmacSha256Hex secret (oid ++ "|" ++ pid) = sig := eq_of_beq hacc
    have h2 : sig ≠ sig' := differsAtOne_ne hdiff
    show (hmacSha256Hex secret (oid ++ "|" ++ pid) == sig') = false
    rw [h1]
    exact beq_eq_false_iff_ne.mpr h2

set_option maxRecDepth 100000 in
/-- Witness for C1 at a concrete secret, order id, payment id and digest. -/
theorem capture_signature_check_iff_hmac_witness :
    verifyCallback "order_A1" "pay_B2"
      "c72c600eff7919e2abcabf2c7ce691bc69bb7533123ad27eb2008d50aba78772"
      "testsecret" = true ∧
    verifyCallback "order_A1" "pay_B2"
      "d72c600eff7919e2abcabf2c7ce691bc69bb7533123ad27eb2008d50aba78772"
      "testsecret" = false :=
  ⟨by decide,
   (capture_signature_check_iff_hmac "order_A1" "pay_B2" "testsecret"
      "c72c600eff7919e2abcabf2c7ce691bc69bb7533123ad27eb2008d50aba78772").2
     "d72c600eff7919e2abcabf2c7ce691bc69bb7533123ad27eb2008d50aba78772"
     (by decide) (by decide)⟩

/-- C2: a capture request with all four fields present but a wrong signature
fails with status 400 and error `Invalid signature`, and the order store is
left exactly as it was. -/
theorem capture_bad_signature_400_no_persist (secret : String) (now : Nat)
    (oid pid sig : String) (od : OrderDetails) (orders : List Order)
    (h1 : oid ≠ "") (h2 : pid ≠ "") (h3 : sig ≠ "")
    (hsig : sig ≠ hmacSha256Hex secret (oid ++ "|" ++ pid)) :
    capture secret now (captureReqOf oid pid sig od) orders =
      { status := 400, success := false, error := some "Invalid signature",
        orderId := none, orders := orders } := by
  have e1 : (oid == "") = false := beq_eq_false_iff_ne.mpr h1
  have e2 : (pid == "") = false := beq_eq_false_iff_ne.mpr h2
  have e3 : (sig == "") = false := beq_eq_false_iff_ne.mpr h3
  have edig : (hmacSha256Hex secret (oid ++ "|" ++ pid) == sig) = false :=
    beq_eq_false_iff_ne.mpr (fun h => hsig h.symm)
  simp only [capture, captureReqOf, e1, e2, e3, edig, Bool.or_false, Bool.or_self,
    if_false, Bool.false_eq_true]

set_option maxRecDepth 100000 in
/-- Witness for C2: a concrete four-field capture request with a wrong
signature is rejected with 400 `Invalid signature` and an unchanged store. -/
theorem capture_bad_signature_400_no_persist_witness :
    capture "testsecret" 0 (captureReqOf "order_A1" "pay_B2" "deadbeef" sampleOD) [] =
      { status := 400, success := false, error := some "Invalid signature",
        orderId := none, orders := [] } :=
  capture_bad_signature_400_no_persist "testsecret" 0 "order_A1" "pay_B2" "deadbeef"
    sampleOD [] (by decide) (by decide) (by decide) (by decide)

/-- C3: for two capture requests sharing only the gateway order id — each
with its own payment id, its own valid signature and its own order details —
exactly one Order is persisted; the second request fails (caught as the 500
response) because `Order.save` is rejected by the store's unique-key
constraint on `orderId` (`SaveError.duplicateKey`), with the store left
unchanged. -/
theorem capture_duplicate_conflict (secret : String) (now1 now2 : Nat)
    (oid pid1 sig1 pid2 sig2 : String) (od1 od2 : OrderDetails) (orders : List Order)
    (h1 : oid ≠ "") (hp1 : pid1 ≠ "") (hp2 : pid2 ≠ "")
    (hsig1 : sig1 = hmacSha256Hex secret (oid ++ "|" ++ pid1)) (hne1 : sig1 ≠ "")
    (hsig2 : sig2 = hmacSha256Hex secret (oid ++ "|" ++ pid2)) (hne2 : sig2 ≠ "")
    (hvalid1 : validOrder (captureOrderDoc oid pid1 sig1 od1 now1) = true)
    (hvalid2 : validOrder (captureOrderDoc oid pid2 sig2 od2 now2) = true)
    (hfresh : ∀ o ∈ orders, o.orderId ≠ oid) :
    capture secret now1 (captureReqOf oid pid1 sig1 od1) orders =
      { status := 200, success := true, error := none, orderId := some oid,
        orders := orders ++ [captureOrderDoc oid pid1 sig1 od1 now1] } ∧
    capture secret now2 (captureReqOf oid pid2 sig2 od2)
        (orders ++ [captureOrderDoc oid pid1 sig1 od1 now1]) =
      { status := 500, success := false, error := some "Internal Server Error",
        orderId := none, orders := orders ++ [captureOrderDoc oid pid1 sig1 od1 now1] } ∧
    (orders ++ [captureOrderDoc oid pid1 sig1 od1 now1]).countP
        (fun o => o.orderId == oid) = 1 ∧
    saveOrder (captureOrderDoc oid pid2 sig2 od2 now2)
        (orders ++ [captureOrderDoc oid pid1 sig1 od1 now1]) =
      .error .duplicateKey := by
  have e1 : (oid == "") = false := beq_eq_false_iff_ne.mpr h1
  have ep1 : (pid1 == "") = false := beq_eq_false_iff_ne.mpr hp1
  have ep2 : (pid2 == "") = false := beq_eq_false_iff_ne.mpr hp2
  have es1 : (sig1 == "") = false := beq_eq_false_iff_ne.mpr hne1
  have es2 : (sig2 == "") = false := beq_eq_false_iff_ne.mpr hne2
  have edig1 : (hmacSha256Hex secret (oid ++ "|" ++ pid1) == sig1) = true := by
    rw [hsig1]
    exact beq_self_eq_true _
  have edig2 : (hmacSha256Hex secret (oid ++ "|" ++ pid2) == sig2) = true := by
    rw [hsig2]
    exact beq_self_eq_true _
  have eany0 : (orders.any fun p => p.orderId == oid) = false := by
    rw [List.any_eq_false]
    intro o ho
    simpa using hfresh o ho
  have doc_id : (captureOrderDoc oid pid1 sig1 od1 now1).orderId = oid := rfl
  have eany1 : ((orders ++ [captureOrderDoc oid pid1 sig1 od1 now1]).any
      fun p => p.orderId == oid) = true := by
    rw [List.any_append]
    simp [eany0, doc_id]
  have eany0d : (orders.any
      fun p => p.orderId == (captureOrderDoc oid pid1 sig1 od1 now1).orderId) = false :=
    eany0
  have eany1d : ((orders ++ [captureOrderDoc oid pid1 sig1 od1 now1]).any
      fun p => p.orderId == (captureOrderDoc oid pid2 sig2 od2 now2).orderId) = true :=
    eany1
  have save1 : saveOrder (captureOrderDoc oid pid1 sig1 od1 now1) orders =
      .ok (orders ++ [captureOrderDoc oid pid1 sig1 od1 now1]) := by
    unfold saveOrder
    rw [hvalid1, eany0d]
    simp
  have save2 : saveOrder (captureOrderDoc oid pid2 sig2 od2 now2)
      (orders ++ [captureOrderDoc oid pid1 sig1 od1 now1]) = .error .duplicateKey := by
    unfold saveOrder
    rw [hvalid2, eany1d]
    simp
  have ecount : (orders ++ [captureOrderDoc oid pid1 sig1 od1 now1]).countP
      (fun o => o.orderId == oid) = 1 := by
    rw [List.countP_append]
    have hz : orders.countP (fun o => o.orderId == oid) = 0 :=
      List.countP_eq_zero.mpr (fun o ho => by simpa using hfresh o ho)
    simp [hz, List.countP_cons, doc_id]
  refine ⟨?_, ?_, ecount, save2⟩
  · simp only [capture, captureReqOf, e1, ep1, es1, edig1, save1]
    simp
  · simp only [capture, captureReqOf, e1, ep2, es2, edig2, save2]
    simp

set_option maxRecDepth 100000 in
/-- Witness for C3: two concrete capture requests sharing only the gateway
order id, with distinct payment ids, signatures and order details. -/
theorem capture_duplicate_conflict_witness :
    capture "sec" 0 (captureReqOf "oid1" "pid1" c3sig sampleOD) ([] : List Order) =
      { status := 200, success := true, error := none, orderId := some "oid1",
        orders := ([] : List Order) ++ [captureOrderDoc "oid1" "pid1" c3sig sampleOD 0] } ∧
    capture "sec" 1 (captureReqOf "oid1" "pid9" c3sig2 sampleOD2)
        (([] : List Order) ++ [captureOrderDoc "oid1" "pid1" c3sig sampleOD 0]) =
      { status := 500, success := false, error := some "Internal Server Error",
        orderId := none,
        orders := ([] : List Order) ++ [captureOrderDoc "oid1" "pid1" c3sig sampleOD 0] } ∧
    (([] : List Order) ++ [captureOrderDoc "oid1" "pid1" c3sig sampleOD 0]).countP
        (fun o => o.orderId == "oid1") = 1 ∧
    saveOrder (captureOrderDoc "oid1" "pid9" c3sig2 sampleOD2 1)
        (([] : List Order) ++ [captureOrderDoc "oid1" "pid1" c3sig sampleOD 0]) =
      .error .duplicateKey :=
  capture_duplicate_conflict "sec" 0 1 "oid1" "pid1" c3sig "pid9" c3sig2 sampleOD
    sampleOD2 [] (by decide) (by decide) (by decide) (by decide) (by decide)
    (by decide) (by decide) (by decide) (by decide)
    (fun o ho => absurd ho (List.not_mem_nil o))

/-- C6: a review submission naming a product id that resolves to no product
fails with 404 and leaves the whole store (comments and products included)
unchanged. -/
theorem review_unknown_product_404 (pid : Int) (req : ReviewReq) (now : Nat) (db : DB)
    (hfind : db.products.find? (fun p => p.legacyId == pid) = none) :
    submitReview pid req now db =
      { status := 404,
        error := some ("Product with ID " ++ toString pid ++ " not found."),
        newComment := none, newRating := none, newReviewsCount := none, db := db } := by
  unfold submitReview
  rw [hfind]

/-- Witness for C6: product id 2 resolves to nothing in the one-product store. -/
theorem review_unknown_product_404_witness :
    submitReview 2 (reviewReqOf "alice" 5 "good") 0 db0 =
      { status := 404,
        error := some ("Product with ID " ++ toString (2 : Int) ++ " not found."),
        newComment := none, newRating := none, newReviewsCount := none, db := db0 } :=
  review_unknown_product_404 2 (reviewReqOf "alice" 5 "good") 0 db0 (by decide)

/-- C10: a status update on an existing order always overwrites both tracking
fields (absent request fields erase stored data to the empty string), sets
`shippingStatus` only when a truthy status is supplied, and leaves every other
order field unchanged. -/
theorem order_status_update_overwrites_tracking (oid : String) (req : StatusUpdateReq)
    (orders : List Order) (o : Order)
    (hfind : orders.find? (fun x => x.orderId == oid) = some o)
    (hstat : truthyStr req.status = true →
      shippingStatusEnum.contains (req.status.getD "") = true) :
    updateOrderStatus oid req orders =
      { status := 200, error := none, order := some (applyStatusUpdate req o),
        orders := updateFirstOrder oid (applyStatusUpdate req) orders } ∧
    (applyStatusUpdate req o).tracking.number = jsOrEmpty req.trackingNumber ∧
    (applyStatusUpdate req o).tracking.carrier = jsOrEmpty req.trackingCarrier ∧
    (req.trackingNumber = none → (applyStatusUpdate req o).tracking.number = "") ∧
    (req.trackingCarrier = none → (applyStatusUpdate req o).tracking.carrier = "") ∧
    (applyStatusUpdate req o).shippingStatus =
      (if truthyStr req.status then req.status.getD "" else o.shippingStatus) ∧
    (applyStatusUpdate req o).orderId = o.orderId ∧
    (applyStatusUpdate req o).date = o.date ∧
    (applyStatusUpdate req o).user = o.user ∧
    (applyStatusUpdate req o).total = o.total ∧
    (applyStatusUpdate req o).items = o.items ∧
    (applyStatusUpdate req o).paymentStatus = o.paymentStatus ∧
    (applyStatusUpdate req o).razorpay = o.razorpay := by
  have hguard : (truthyStr req.status &&
      !(shippingStatusEnum.contains (req.status.getD ""))) = false := by
    cases h : truthyStr req.status
    · rfl
    · rw [hstat h]
      rfl
  refine ⟨?_, rfl, rfl, ?_, ?_, rfl, rfl, rfl, rfl, rfl, rfl, rfl, rfl⟩
  · unfold updateOrderStatus
    rw [hguard, hfind]
    simp
  · intro h
    show jsOrEmpty req.trackingNumber = ""
    rw [h]
    rfl
  · intro h
    show jsOrEmpty req.trackingCarrier = ""
    rw [h]
    rfl

/-- Witness for C10: a status-only update on an order that has stored tracking
data erases both tracking fields. -/
theorem order_status_update_overwrites_tracking_witness :
    updateOrderStatus "ord_t1" { status := some "Shipped" } [trackedOrder] =
      { status := 200, error := none,
        order := some (applyStatusUpdate { status := some "Shipped" } trackedOrder),
        orders := updateFirstOrder "ord_t1"
          (applyStatusUpdate { status := some "Shipped" }) [trackedOrder] } ∧
    (applyStatusUpdate { status := some "Shipped" } trackedOrder).tracking.number =
      jsOrEmpty none ∧
    (applyStatusUpdate { status := some "Shipped" } trackedOrder).tracking.carrier =
      jsOrEmpty none ∧
    (none = (none : Option String) →
      (applyStatusUpdate { status := some "Shipped" } trackedOrder).tracking.number = "") ∧
    (none = (none : Option String) →
      (applyStatusUpdate { status := some "Shipped" } trackedOrder).tracking.carrier = "") ∧
    (applyStatusUpdate { status := some "Shipped" } trackedOrder).shippingStatus =
      (if truthyStr (some "Shipped") then (some "Shipped").getD ""
       else trackedOrder.shippingStatus) ∧
    (applyStatusUpdate { status := some "Shipped" } trackedOrder).orderId =
      trackedOrder.orderId ∧
    (applyStatusUpdate { status := some "Shipped" } trackedOrder).date = trackedOrder.date ∧
    (applyStatusUpdate { status := some "Shipped" } trackedOrder).user = trackedOrder.user ∧
    (applyStatusUpdate { status := some "Shipped" } trackedOrder).total = trackedOrder.total ∧
    (applyStatusUpdate { status := some "Shipped" } trackedOrder).items = trackedOrder.items ∧
    (applyStatusUpdate { status := some "Shipped" } trackedOrder).paymentStatus =
      trackedOrder.paymentStatus ∧
    (applyStatusUpdate { status := some "Shipped" } trackedOrder).razorpay =
      trackedOrder.razorpay :=
  order_status_update_overwrites_tracking "ord_t1" { status := some "Shipped" }
    [trackedOrder] trackedOrder (by decide) (fun h => by decide)

/-- C9 counterexample: a negative total is not rejected up front; the gateway
is asked for an intent of `round(-5 * 100) = -500` minor units and the request
even succeeds when the gateway accepts. -/
theorem createOrder_negative_total_calls_gateway :
    createOrder (fun a => .ok "order_x") (some (-5)) =
      { status := 200, success := some true, error := none, orderId := some "order_x",
        calledWith := some (-500) } := by
  decide

/-- C9 (amended): the up-front 400 rejection happens exactly for a falsy
(missing or zero) `total` and then the gateway is never called; for any other
total — negative ones included — the gateway is asked for
`Math.round(total * 100)` minor units, and the response is 200 exactly when
the gateway call returns an intent. -/
theorem createOrder_guard_and_gateway (gateway : Int → GatewayOutcome) (total : Option Rat) :
    (truthyNum total = false →
      createOrder gateway total =
        { status := 400, success := some false, error := some "Total amount is required.",
          orderId := none, calledWith := none }) ∧
    (∀ t, total = some t → t ≠ 0 →
      (createOrder gateway total).calledWith = some (jsRound (t * 100)) ∧
      ((createOrder gateway total).status = 200 ↔
        ∃ oid, gateway (jsRound (t * 100)) = .ok oid)) := by
  constructor
  · intro hfal
    cases total with
    | none => rfl
    | some t =>
        have ht : (t == 0) = true := by
          have h2 : (!(t == 0)) = false := hfal
          simpa using h2
        simp only [createOrder]
        rw [ht]
        simp
  · intro t ht hne
    subst ht
    have ht0 : (t == 0) = false := beq_eq_false_iff_ne.mpr hne
    simp only [createOrder]
    rw [ht0]
    simp only [Bool.false_eq_true, if_false]
    cases h : gateway (jsRound (t * 100)) <;> simp [h]

/-- Witness for C9: a missing total is rejected without a gateway call, and a
total of 2 asks the gateway for 200 minor units and succeeds. -/
theorem createOrder_guard_and_gateway_witness :
    createOrder (fun a => .ok "order_x") none =
      { status := 400, success := some false, error := some "Total amount is required.",
        orderId := none, calledWith := none } ∧
    (createOrder (fun a => .ok "order_x") (some 2)).calledWith = some (jsRound (2 * 100)) ∧
    ((createOrder (fun a => .ok "order_x") (some 2)).status = 200 ↔
      ∃ oid, (fun a => GatewayOutcome.ok "order_x") (jsRound ((2 : Rat) * 100)) = .ok oid) :=
  ⟨(createOrder_guard_and_gateway (fun a => .ok "order_x") none).1 (by decide),
   (createOrder_guard_and_gateway (fun a => .ok "order_x") (some 2)).2 2 rfl (by decide)⟩

/-- C8 counterexample: the legacy listing endpoint applies no clamping; with 51
products and `limit=1000` the page holds all 51 products, exceeding 50. -/
theorem legacy_pagination_unclamped :
    (legacyGetProductsPage 1 1000 (List.replicate 51 baseProduct)).products.length = 51 ∧
    ¬((legacyGetProductsPage 1 1000 (List.replicate 51 baseProduct)).products.length ≤ 50) := by
  decide

/-- C8 (amended): the serverless listing endpoint clamps the page number to at
least 1 and the page size to at most 50 (`limit=1000` behaves as `limit=50`),
and over 25 products `page=2, limit=10` yields 10 products, `totalPages=3`,
`currentPage=2`; the legacy variant applies no clamping. -/
theorem getProducts_pagination_clamped (page limit : Int) (products : List Product) :
    (getProductsPage page limit products).currentPage = max 1 page ∧
    1 ≤ (getProductsPage page limit products).currentPage ∧
    (getProductsPage page limit products).products.length ≤ 50 ∧
    getProductsPage page 1000 products = getProductsPage page 50 products ∧
    (products.length = 25 →
      (getProductsPage 2 10 products).products.length = 10 ∧
      (getProductsPage 2 10 products).totalPages = 3 ∧
      (getProductsPage 2 10 products).currentPage = 2) := by
  refine ⟨rfl, le_max_left 1 page, ?_, ?_, ?_⟩
  · calc ((getProductsPage page limit products).products).length
        ≤ (min 50 (max 1 limit)).toNat := List.length_take_le _ _
      _ ≤ 50 := by
          rw [Int.toNat_le]
          exact le_trans (min_le_left _ _) (by norm_num)
  · have e : min 50 (max 1 (1000 : Int)) = min 50 (max 1 (50 : Int)) := by decide
    unfold getProductsPage
    rw [e]
  · intro h
    refine ⟨?_, ?_, ?_⟩
    · simp only [getProductsPage, List.length_take, List.length_drop, h]
      decide
    · simp only [getProductsPage, h]
      decide
    · show max (1 : Int) 2 = 2
      decide

/-- Witness for C8 over a concrete catalog of 25 products. -/
theorem getProducts_pagination_clamped_witness :
    (getProductsPage 2 10 (List.replicate 25 baseProduct)).products.length = 10 ∧
    (getProductsPage 2 10 (List.replicate 25 baseProduct)).totalPages = 3 ∧
    (getProductsPage 2 10 (List.replicate 25 baseProduct)).currentPage = 2 :=
  (getProducts_pagination_clamped 2 10 (List.replicate 25 baseProduct)).2.2.2.2 (by decide)

/-- C4 counterexample: the admin product-update endpoint passes the request
body straight to the store, so it overwrites `rating` independently of the
Comment records: with no comments at all the stored rating becomes 5. -/
theorem putProduct_mutates_rating :
    (putProduct 1 { rating := some 5 } db0).status = 200 ∧
    (putProduct 1 { rating := some 5 } db0).db.products.find? (fun x => x.legacyId == 1) =
      some { baseProduct with rating := 5 } ∧
    commentsFor 1 (putProduct 1 { rating := some 5 } db0).db.comments = [] := by
  decide

/-- C4 (amended): starting from an empty comment set, after N accepted review
submissions with ratings `r_1..r_N` the stored product carries
`rating = round1(mean r_i)` and `reviewsCount = N`, every submission answering
201; the aggregate is recomputed fresh over all Comment records each time.
(The admin `PUT /api/products/:id` can, however, overwrite `rating` and
`reviewsCount` independently, since it applies the raw request body.) -/
theorem review_aggregate_recomputed_fresh (now : Nat) (base : Product) (db : DB)
    (reviews : List (String × Int × String))
    (hfind : db.products.find? (fun x => x.legacyId == base.legacyId) = some base)
    (hpv : validProduct base = true)
    (hempty : commentsFor base.legacyId db.comments = [])
    (hgood : ∀ x ∈ reviews, (x.1 == "") = false ∧ (jsTrim x.1 == "") = false ∧
      (x.2.2 == "") = false ∧ (jsTrim x.2.2 == "") = false ∧ 1 ≤ x.2.1 ∧ x.2.1 ≤ 5)
    (hne : reviews ≠ []) :
    (submitAll base.legacyId reviews now db).1.all (fun s => s == 201) = true ∧
    (submitAll base.legacyId reviews now db).2.products.find?
        (fun x => x.legacyId == base.legacyId) =
      some (aggregatedProduct base (reviews.map (fun x => x.2.1))) := by
  have h := submitAll_ok now base reviews db base [] hfind hpv (Or.inl rfl)
    (by rw [hempty]; rfl) hgood
  refine ⟨h.1, ?_⟩
  rw [h.2]
  cases reviews with
  | nil => exact absurd rfl hne
  | cons y ys => simp

/-- Witness for C4: three reviews rated 5, 4, 4 on a fresh product yield
`rating = round1(13/3) = 4.3` and `reviewsCount = 3`. -/
theorem review_aggregate_recomputed_fresh_witness :
    (submitAll 1 [("alice", 5, "nice"), ("bob", 4, "good"), ("cara", 4, "fine")] 0 db0).1.all
      (fun s => s == 201) = true ∧
    (submitAll 1 [("alice", 5, "nice"), ("bob", 4, "good"), ("cara", 4, "fine")]
        0 db0).2.products.find? (fun x => x.legacyId == 1) =
      some (aggregatedProduct baseProduct [5, 4, 4]) :=
  review_aggregate_recomputed_fresh 0 baseProduct db0
    [("alice", 5, "nice"), ("bob", 4, "good"), ("cara", 4, "fine")]
    (by decide) (by decide) rfl (by decide) (by decide)

/-- C5: an accepted review's `verifiedPurchase` flag is true iff some order
containing the product has a lowercased/trimmed customer full name
(`firstname + " " + lastname`) that contains the lowercased/trimmed reviewer
username as a substring — a boolean OR over all candidate orders. -/
theorem review_verifiedPurchase_name_substring (pid : Int) (u : String) (q : Rat)
    (c : String) (now : Nat) (db : DB) (p : Product)
    (hfind : db.products.find? (fun x => x.legacyId == pid) = some p)
    (hpv : validProduct p = true)
    (hu : (u == "") = false) (hut : (jsTrim u == "") = false)
    (hc : (c == "") = false) (hct : (jsTrim c == "") = false)
    (hq1 : 1 ≤ q) (hq5 : q ≤ 5) :
    (submitReview pid (reviewReqOf u q c) now db).newComment =
      some (reviewCommentDoc p.legacyId u q c
        (isVerifiedPurchase p.legacyId u db.orders) now) ∧
    ((reviewCommentDoc p.legacyId u q c
        (isVerifiedPurchase p.legacyId u db.orders) now).verifiedPurchase = true ↔
      ∃ o ∈ db.orders, (∃ it ∈ o.items, it.id = p.legacyId) ∧
        jsIncludes (jsTrim (jsToLower (o.user.firstname ++ " " ++ o.user.lastname)))
          (jsTrim (jsToLower u)) = true) := by
  constructor
  · rw [submitReview_accepted pid u q c now db p hfind hpv hu hut hc hct hq1 hq5]
    rfl
  · exact isVerifiedPurchase_iff p.legacyId u db.orders

/-- Witness for C5: username "priya sharma" is verified against an order by
firstname "Priya", lastname "Sharma Reddy" containing the product. -/
theorem review_verifiedPurchase_name_substring_witness :
    (submitReview 1 (reviewReqOf "priya sharma" 5 "great product") 0 dbPriya).newComment =
      some (reviewCommentDoc 1 "priya sharma" 5 "great product"
        (isVerifiedPurchase 1 "priya sharma" dbPriya.orders) 0) ∧
    ((reviewCommentDoc 1 "priya sharma" 5 "great product"
        (isVerifiedPurchase 1 "priya sharma" dbPriya.orders) 0).verifiedPurchase = true ↔
      ∃ o ∈ dbPriya.orders, (∃ it ∈ o.items, it.id = 1) ∧
        jsIncludes (jsTrim (jsToLower (o.user.firstname ++ " " ++ o.user.lastname)))
          (jsTrim (jsToLower "priya sharma")) = true) :=
  review_verifiedPurchase_name_substring 1 "priya sharma" 5 "great product" 0 dbPriya
    baseProduct (by decide) (by decide) (by decide) (by decide) (by decide) (by decide)
    (by decide) (by decide)

/-- C7 counterexample: the non-integer rating 3.5 on an existing product is
accepted (201), stored truncated to 3, contradicting the claim that a
non-integer rating fails with 400. -/
theorem review_noninteger_rating_accepted :
    (submitReview 1 (reviewReqOf "alice" ((7 : Rat) / 2) "good") 0 db0).status = 201 ∧
    (submitReview 1 (reviewReqOf "alice" ((7 : Rat) / 2) "good") 0 db0).newComment =
      some { productId := 1, username := "alice", comment := "good", rating := 3,
             createdAt := 0, verifiedPurchase := false } := by
  decide

/-- C7 (amended): on an existing product the submission fails with 400 exactly
for a missing/empty username or comment, a missing or zero rating, or a rating
below 1 or above 5; any rating in `[1,5]` — integer or not — is accepted, the
stored rating being `parseInt(rating)` (truncation). -/
theorem review_validation_gate (pid : Int) (now : Nat) (db : DB) (p : Product)
    (hfind : db.products.find? (fun x => x.legacyId == pid) = some p)
    (hpv : validProduct p = true) :
    (∀ req : ReviewReq,
      (req.user = none ∨ req.user = some "" ∨ req.rating = none ∨ req.rating = some 0 ∨
        req.comment = none ∨ req.comment = some "" ∨
        (∃ qq, req.rating = some qq ∧ (qq < 1 ∨ 5 < qq))) →
      submitReview pid req now db =
        { status := 400,
          error := some "Missing required review fields: user, rating, comment",
          newComment := none, newRating := none, newReviewsCount := none, db := db }) ∧
    (∀ (u : String) (q : Rat) (c : String),
      (u == "") = false → (jsTrim u == "") = false → (c == "") = false →
      (jsTrim c == "") = false → 1 ≤ q → q ≤ 5 →
      submitReview pid (reviewReqOf u q c) now db = reviewSuccessResult p u q c now db ∧
      (reviewSuccessResult p u q c now db).newComment =
        some (reviewCommentDoc p.legacyId u q c
          (isVerifiedPurchase p.legacyId u db.orders) now) ∧
      (reviewCommentDoc p.legacyId u q c
          (isVerifiedPurchase p.legacyId u db.orders) now).rating = jsParseInt q) := by
  constructor
  · rintro ⟨ou, oq, oc⟩ hbad
    unfold submitReview
    rw [hfind]
    cases ou with
    | none => rfl
    | some u =>
      cases oq with
      | none => rfl
      | some qq =>
        cases oc with
        | none => rfl
        | some cc =>
          have hg : (u == "" || (qq == 0 : Bool) || cc == "" ||
              decide (qq < 1) || decide (qq > 5)) = true := by
            rcases hbad with h | h | h | h | h | h | ⟨q2, hq2, hb⟩
            · exact Option.noConfusion h
            · have he : u = "" := Option.some.inj h
              subst he
              simp
            · exact Option.noConfusion h
            · have he : qq = 0 := Option.some.inj h
              subst he
              simp
            · exact Option.noConfusion h
            · have he : cc = "" := Option.some.inj h
              subst he
              simp
            · have he : qq = q2 := Option.some.inj hq2
              subst he
              rcases hb with hb | hb <;> simp [hb]
          dsimp only
          rw [hg]
          simp
  · intro u q c hu hut hc hct hq1 hq5
    exact ⟨submitReview_accepted pid u q c now db p hfind hpv hu hut hc hct hq1 hq5,
      rfl, rfl⟩

/-- Witness for C7: a missing username is rejected with 400, while rating 3.5
is accepted and stored as `parseInt(3.5) = 3`. -/
theorem review_validation_gate_witness :
    submitReview 1 { user := none, rating := some 3, comment := some "x" } 0 db0 =
      { status := 400,
        error := some "Missing required review fields: user, rating, comment",
        newComment := none, newRating := none, newReviewsCount := none, db := db0 } ∧
    submitReview 1 (reviewReqOf "alice" ((7 : Rat) / 2) "good") 0 db0 =
      reviewSuccessResult baseProduct "alice" ((7 : Rat) / 2) "good" 0 db0 ∧
    (reviewCommentDoc baseProduct.legacyId "alice" ((7 : Rat) / 2) "good"
        (isVerifiedPurchase baseProduct.legacyId "alice" db0.orders) 0).rating =
      jsParseInt ((7 : Rat) / 2) :=
  ⟨(review_validation_gate 1 0 db0 baseProduct (by decide) (by decide)).1
      { user := none, rating := some 3, comment := some "x" } (Or.inl rfl),
   ((review_validation_gate 1 0 db0 baseProduct (by decide) (by decide)).2
      "alice" ((7 : Rat) / 2) "good" (by decide) (by decide) (by decide) (by decide)
      (by decide) (by decide)).1,
   ((review_validation_gate 1 0 db0 baseProduct (by decide) (by decide)).2
      "alice" ((7 : Rat) / 2) "good" (by decide) (by decide) (by decide) (by decide)
      (by decide) (by decide)).2.2⟩

end Goshala
